import Mathlib

/-!
Verification of the `default_access_control` plugin
(`src/plugins/default_access_control/main.py`): a shallow embedding of the
security-marking access-control engine, and theorems checking the
specification's claims against it.

Modelling conventions:
* Python strings are `String`; a Python argument that may be `None` is
  `Option String` (`none` = Python `None`).
* The result of `json.loads(user_accesses_json)` is `Option Json`
  (`none` = the parse raised `ValueError`, which the source catches);
  the engine only observes the parse through this outcome.
* Python operations that can raise per-request exceptions are embedded in
  `Except PyErr`; `.error` means the Python call raises.
* `str.upper()` is modelled by `strUpper` (ASCII uppercasing; the registry
  names are ASCII).
-/

/-- Exceptions the embedded Python fragments can raise. -/
inductive PyErr where
  | keyError (key : String)
  | typeError
  | indexError
deriving DecidableEq, Repr

/-- A parsed JSON value, the possible results of `json.loads`.
Numbers are modelled as integers (no claim depends on float values);
a Python `dict` is modelled as its key/value pairs with last-wins lookup. -/
inductive Json where
  | null
  | bool (b : Bool)
  | num (n : Int)
  | str (s : String)
  | arr (elems : List Json)
  | obj (fields : List (String × Json))

/-- Python `j == x` for a string `x` on the left: true exactly when `j` is
the equal string (Python `==` between a `str` and a non-`str` is `False`). -/
def jsonEqStr (j : Json) (x : String) : Bool :=
  match j with
  | Json.str y => y == x
  | _ => false

/-- A JSON array of strings, the expected shape of the profile's
`clearances` / `formal_accesses` / `visas` fields. -/
def strArr (l : List String) : Json :=
  Json.arr (l.map Json.str)

/-- Python `dict` lookup on the field list of a `Json.obj`
(last binding of a key wins, as in a dict built by repeated assignment). -/
def dictGet (fields : List (String × Json)) (key : String) : Option Json :=
  (fields.reverse.find? (fun p => p.1 == key)).map (fun p => p.2)

/-- Python subscript `j[key]` with a string key: `dict` lookup
(`KeyError` when missing), `TypeError` on any non-dict value. -/
def pySubscript (j : Json) (key : String) : Except PyErr Json :=
  match j with
  | Json.obj fields =>
    match dictGet fields key with
    | some v => Except.ok v
    | none => Except.error (PyErr.keyError key)
  | _ => Except.error PyErr.typeError

/-- Substring test on character lists, used to model Python `x in s`
for strings. -/
def charsContain (hay needle : List Char) : Bool :=
  hay.tails.any (fun t => needle.isPrefixOf t)

/-- Python membership `x in container` for a string `x`:
element equality for lists, substring for strings, key membership for
dicts, `TypeError` for non-iterable values. -/
def pyIn (x : String) (container : Json) : Except PyErr Bool :=
  match container with
  | Json.arr xs => Except.ok (xs.any (fun j => jsonEqStr j x))
  | Json.str s => Except.ok (charsContain s.toList x.toList)
  | Json.obj fields => Except.ok (fields.any (fun p => p.1 == x))
  | _ => Except.error PyErr.typeError

/-- Python `a += b` on the values a profile field can hold:
list extend (accepting any iterable), string concatenation, numeric
addition (bools coerce to 0/1), `TypeError` otherwise. -/
def pyIAdd (a b : Json) : Except PyErr Json :=
  match a, b with
  | Json.arr xs, Json.arr ys => Except.ok (Json.arr (xs ++ ys))
  | Json.arr xs, Json.str s =>
    Except.ok (Json.arr (xs ++ s.toList.map (fun c => Json.str (String.singleton c))))
  | Json.arr xs, Json.obj fs => Except.ok (Json.arr (xs ++ fs.map (fun p => Json.str p.1)))
  | Json.arr _, _ => Except.error PyErr.typeError
  | Json.str s, Json.str t => Except.ok (Json.str (s ++ t))
  | Json.str _, _ => Except.error PyErr.typeError
  | Json.num n, Json.num m => Except.ok (Json.num (n + m))
  | Json.num n, Json.bool b => Except.ok (Json.num (n + (if b then 1 else 0)))
  | Json.bool a, Json.num m => Except.ok (Json.num ((if a then 1 else 0) + m))
  | Json.bool a, Json.bool b =>
    Except.ok (Json.num ((if a then 1 else 0) + (if b then 1 else 0)))
  | _, _ => Except.error PyErr.typeError

/-- Python `xs[0]` on a list: `IndexError` when empty. -/
def pyIndexZero (xs : List String) : Except PyErr String :=
  match xs with
  | [] => Except.error PyErr.indexError
  | x :: _ => Except.ok x

/-- Segments of a character list split on the two-character delimiter `//`,
left to right, non-overlapping — the semantics of Python `s.split('//')`. -/
def splitSegs : List Char → List (List Char)
  | [] => [[]]
  | [c] => [[c]]
  | c1 :: c2 :: rest =>
    if c1 = '/' ∧ c2 = '/' then
      [] :: splitSegs rest
    else
      match splitSegs (c2 :: rest) with
      | [] => [[c1]]
      | seg :: segs => (c1 :: seg) :: segs

/-- Python `s.split('//')`. -/
def pySplit (s : String) : List String :=
  (splitSegs s.toList).map (fun cs => String.mk cs)

theorem splitSegs_ne_nil (cs : List Char) : splitSegs cs ≠ [] := by
  match cs with
  | [] => simp [splitSegs]
  | [c] => simp [splitSegs]
  | c1 :: c2 :: rest =>
    simp only [splitSegs]
    split
    · simp
    · split <;> simp

theorem pySplit_ne_nil (s : String) : pySplit s ≠ [] := by
  unfold pySplit
  simp [splitSegs_ne_nil]

/-- Python `s.upper()`, modelled as ASCII per-character uppercasing
(all registry names are ASCII). -/
def strUpper (s : String) : String :=
  String.mk (s.toList.map Char.toUpper)

/-- Modelled from the spec: the token taxonomy of the missing
`plugins/default_access_control/tokens.py` module — `kind` ranges over the
four token classes; `level` is present only for Classification tokens. -/
inductive TokenKind where
  | classif
  | disseminationControl
  | unknown
  | invalidFormat
deriving DecidableEq, Repr

/-- Modelled from the spec: an immutable typed marking segment with a
short name, a long name and (for Classification tokens) a level. -/
structure Token where
  kind : TokenKind
  short_name : String
  long_name : String
  level : Option Int
deriving DecidableEq, Repr

/-- Modelled from the spec: the `ClassificationToken` constructor of the
missing `tokens.py` (keyword construction from a config `data` dict). -/
def ClassificationToken (short_name long_name : String) (level : Option Int) : Token :=
  { kind := TokenKind.classif, short_name := short_name,
    long_name := long_name, level := level }

/-- Modelled from the spec: the `DisseminationControlToken` constructor of
the missing `tokens.py`. -/
def DisseminationControlToken (short_name long_name : String) : Token :=
  { kind := TokenKind.disseminationControl, short_name := short_name,
    long_name := long_name, level := none }

/-- Modelled from the spec: the `UnknownToken` sentinel of the missing
`tokens.py`, carrying the raw unmatched segment text as its long name. -/
def UnknownToken (long_name : String) : Token :=
  { kind := TokenKind.unknown, short_name := "", long_name := long_name,
    level := none }

/-- Modelled from the spec: the `InvalidFormatToken` sentinel of the
missing `tokens.py`, produced for malformed configuration entries. -/
def InvalidFormatToken : Token :=
  { kind := TokenKind.invalidFormat, short_name := "", long_name := "",
    level := none }

/-- The `data` dict of a configuration entry (fields the token
constructors accept; `level` only appears on Classification entries). -/
structure TokenData where
  short_name : String
  long_name : String
  level : Option Int
deriving DecidableEq, Repr

/-- One entry of the configuration list; `type` and `data` model
`input.get('type')` / `input.get('data')` (absent key = `none`). -/
structure TokenDef where
  type : Option String
  data : Option TokenData
deriving DecidableEq, Repr

/-- `PluginMain._convert_dict_to_token`: dispatch a configuration entry on
its `type` string; missing `type`/`data` or an unrecognized `type` yields
`InvalidFormatToken`. -/
def convert_dict_to_token (input : TokenDef) : Token :=
  match input.type, input.data with
  | none, _ => InvalidFormatToken
  | _, none => InvalidFormatToken
  | some t, some d =>
    if t = "Classification" then
      ClassificationToken d.short_name d.long_name d.level
    else if t = "DisseminationControl" then
      DisseminationControlToken d.short_name d.long_name
    else
      InvalidFormatToken

/-- The hard-coded `tokens_list` configuration of `main.py`. -/
def tokens_list : List TokenDef :=
  [ { type := some "Classification",
      data := some { short_name := "U", long_name := "Unclassified", level := some 1 } },
    { type := some "Classification",
      data := some { short_name := "C", long_name := "Confidential", level := some 2 } },
    { type := some "Classification",
      data := some { short_name := "S", long_name := "Secret", level := some 3 } },
    { type := some "Classification",
      data := some { short_name := "TS", long_name := "Top Secret", level := some 4 } },
    { type := some "DisseminationControl",
      data := some { short_name := "FOUO", long_name := "FOR OFFICIAL USE ONLY", level := none } } ]

/-- The registry built in `PluginMain.__init__`:
`self.tokens = [self._convert_dict_to_token(input) for input in tokens_list]`. -/
def default_tokens : List Token :=
  tokens_list.map convert_dict_to_token

/-- One of the lookup dicts built inside `_split_tokens` by the loop
`lookup[token.<name>.upper()] = token`: starting from the empty dict, each
assignment overwrites, so later tokens shadow earlier ones. -/
def buildLookup (key : Token → String) (tokens : List Token) : String → Option Token :=
  tokens.foldl
    (fun table t => fun name => if strUpper (key t) == name then some t else table name)
    (fun _ => none)

/-- Specification-side form of the same dict: the last token whose
uppercased name equals the queried name. -/
def lookupLast (key : Token → String) (tokens : List Token) (name : String) : Option Token :=
  tokens.reverse.find? (fun t => strUpper (key t) == name)

theorem buildLookup_eq (key : Token → String) (tokens : List Token) (name : String) :
    buildLookup key tokens name = lookupLast key tokens name := by
  induction tokens using List.reverseRecOn with
  | nil => rfl
  | append_singleton ts t ih =>
    unfold buildLookup lookupLast at *
    rw [List.foldl_append, List.reverse_append]
    simp only [List.foldl_cons, List.foldl_nil, List.singleton_append, List.find?_cons]
    by_cases h : strUpper (key t) == name
    · simp [h]
    · simp only [h]
      rw [ih]
      simp [Bool.not_eq_true] at h
      simp [h]

/-- The per-segment resolution performed by the loop body of
`_split_tokens`: case-insensitive lookup, long-name dict first, then
short-name dict, `UnknownToken` fallback carrying the raw segment. -/
def resolveToken (tokens : List Token) (seg : String) : Token :=
  match lookupLast (fun t => t.long_name) tokens (strUpper seg) with
  | some t => t
  | none =>
    match lookupLast (fun t => t.short_name) tokens (strUpper seg) with
    | some t => t
    | none => UnknownToken seg

/-- `PluginMain._split_tokens` (with the default delimiter `'//'`):
builds the two lookup dicts, splits the marking, and appends the resolved
token for each segment to the output list. -/
def split_tokens (tokens : List Token) (input_marking : String) : List Token :=
  let long_name_lookup := buildLookup (fun t => t.long_name) tokens
  let short_name_lookup := buildLookup (fun t => t.short_name) tokens
  let markings := pySplit input_marking
  markings.foldl
    (fun output_tokens marking =>
      output_tokens ++
        [match long_name_lookup (strUpper marking) with
         | some t => t
         | none =>
           match short_name_lookup (strUpper marking) with
           | some t => t
           | none => UnknownToken marking])
    []

theorem foldl_append_singleton (f : String → Token) (l : List String) (init : List Token) :
    l.foldl (fun acc a => acc ++ [f a]) init = init ++ l.map f := by
  induction l generalizing init with
  | nil => simp
  | cons a t ih => simp [ih]

/-- The source-shaped `split_tokens` is segment-wise resolution in
segment order. -/
theorem split_tokens_eq_map (tokens : List Token) (m : String) :
    split_tokens tokens m = (pySplit m).map (resolveToken tokens) := by
  simp only [split_tokens]
  rw [foldl_append_singleton]
  simp only [List.nil_append]
  apply List.map_congr_left
  intro seg _
  unfold resolveToken
  rw [buildLookup_eq, buildLookup_eq]

/-- `PluginMain.has_access`: the permissive strategy, `return True`
regardless of both arguments. -/
def has_access (user_accesses_json : Option String) (marking : Option String) : Bool :=
  true

/-- Emptiness of the list comprehension
`[i for i in required_controls if i not in user_controls]`: every
membership test is evaluated (left to right), so a `TypeError` raised by
any test propagates even when an earlier control was already missing. -/
def missing_controls_empty (required_controls : List String) (user_controls : Json) :
    Except PyErr Bool :=
  match required_controls with
  | [] => Except.ok true
  | i :: rest =>
    match pyIn i user_controls with
    | Except.error e => Except.error e
    | Except.ok present =>
      match missing_controls_empty rest user_controls with
      | Except.error e => Except.error e
      | Except.ok restEmpty => Except.ok (present && restEmpty)

/-- `PluginMain.future_has_access`: the strict-membership decision.
`user_accesses` is the outcome of `json.loads(user_accesses_json)`
(`none` = the `ValueError` branch, which logs and returns `False`);
`marking = none` models a `None` marking argument. -/
def future_has_access (user_accesses : Option Json) (marking : Option String) :
    Except PyErr Bool :=
  match marking with
  | none => Except.ok false
  | some m =>
    if m = "" then Except.ok false
    else
      let markings := pySplit m
      match user_accesses with
      | none => Except.ok false
      | some ua =>
        match pySubscript ua "clearances" with
        | Except.error e => Except.error e
        | Except.ok clearances =>
          match pyIndexZero markings with
          | Except.error e => Except.error e
          | Except.ok required_clearance =>
            match pyIn required_clearance clearances with
            | Except.error e => Except.error e
            | Except.ok held =>
              if !held then Except.ok false
              else
                match pySubscript ua "formal_accesses" with
                | Except.error e => Except.error e
                | Except.ok formal =>
                  match pySubscript ua "visas" with
                  | Except.error e => Except.error e
                  | Except.ok visas =>
                    match pyIAdd formal visas with
                    | Except.error e => Except.error e
                    | Except.ok user_controls =>
                      match missing_controls_empty markings.tail user_controls with
                      | Except.error e => Except.error e
                      | Except.ok noneMissing => Except.ok noneMissing

/-- `PluginMain.validate_marking`: `False` for `None`/empty marking,
otherwise tokenize and test whether the first token is a
`ClassificationToken`; `tokens[0]` on an empty list would be an
`IndexError`. -/
def validate_marking (tokens : List Token) (marking : Option String) :
    Except PyErr Bool :=
  match marking with
  | none => Except.ok false
  | some m =>
    if m = "" then Except.ok false
    else
      match split_tokens tokens m with
      | [] => Except.error PyErr.indexError
      | t0 :: _ => Except.ok (t0.kind == TokenKind.classif)

/-- The `PluginMain` engine object: the constructor stores `settings` and
`requests` (never read by any method) and builds the token registry once. -/
structure PluginMain where
  settings : Option String
  requests : Option String
  tokens : List Token

/-- `PluginMain.__init__`. -/
def PluginMain.init (settings requests : Option String) : PluginMain :=
  { settings := settings, requests := requests,
    tokens := tokens_list.map convert_dict_to_token }

/-- `_split_tokens` as a method: its result plus the engine state after the
call (the body only reads `self.tokens`, so the state is returned as-is). -/
def PluginMain.split_tokensM (e : PluginMain) (input_marking : String) :
    List Token × PluginMain :=
  (split_tokens e.tokens input_marking, e)

/-- `validate_marking` as a method with its post-call engine state. -/
def PluginMain.validate_markingM (e : PluginMain) (marking : Option String) :
    Except PyErr Bool × PluginMain :=
  (validate_marking e.tokens marking, e)

/-- `future_has_access` as a method with its post-call engine state
(the body never touches `self.tokens`). -/
def PluginMain.future_has_accessM (e : PluginMain) (user_accesses : Option Json)
    (marking : Option String) : Except PyErr Bool × PluginMain :=
  (future_has_access user_accesses marking, e)

/-- `has_access` as a method with its post-call engine state. -/
def PluginMain.has_accessM (e : PluginMain) (user_accesses_json marking : Option String) :
    Bool × PluginMain :=
  (has_access user_accesses_json marking, e)

/-- Exact, case-sensitive string membership in a list of identifiers. -/
def memStr (l : List String) (x : String) : Bool :=
  l.any (fun a => a == x)

theorem pyIn_strArr (x : String) (l : List String) :
    pyIn x (strArr l) = Except.ok (memStr l x) := by
  induction l with
  | nil => rfl
  | cons a t ih =>
    simp only [pyIn, strArr, List.map_cons, List.any_cons, memStr, jsonEqStr] at *
    simp only [Except.ok.injEq] at ih ⊢
    rw [ih]

theorem pyIAdd_strArr (fs vs : List String) :
    pyIAdd (strArr fs) (strArr vs) = Except.ok (strArr (fs ++ vs)) := by
  simp [pyIAdd, strArr]

theorem missing_controls_empty_strArr (req l : List String) :
    missing_controls_empty req (strArr l) =
      Except.ok (req.all (fun s => memStr l s)) := by
  induction req with
  | nil => rfl
  | cons i rest ih =>
    simp only [missing_controls_empty, pyIn_strArr, ih, List.all_cons]

/-- Full evaluation of the strict decision on a profile whose three fields
are arrays of strings: the result is clearance membership of the first
segment AND membership of every later segment in the combined controls. -/
theorem future_has_access_strArr
    (fields : List (String × Json)) (cs fs vs : List String) (m : String)
    (hm : m ≠ "")
    (hc : dictGet fields "clearances" = some (strArr cs))
    (hf : dictGet fields "formal_accesses" = some (strArr fs))
    (hv : dictGet fields "visas" = some (strArr vs)) :
    future_has_access (some (Json.obj fields)) (some m) =
      Except.ok (memStr cs ((pySplit m).headD "") &&
        (pySplit m).tail.all (fun s => memStr (fs ++ vs) s)) := by
  simp only [future_has_access, if_neg hm, pySubscript, hc, hf, hv]
  cases hsplit : pySplit m with
  | nil => exact absurd hsplit (pySplit_ne_nil m)
  | cons seg rest =>
    simp only [pyIndexZero, pyIn_strArr, List.headD_cons, List.tail_cons]
    by_cases hmem : memStr cs seg
    · simp only [hmem, Bool.not_true, Bool.false_eq_true, if_neg, ite_false,
        pyIAdd_strArr, missing_controls_empty_strArr, Bool.true_and]
    · simp only [Bool.not_eq_true] at hmem
      simp [hmem]

/-- C1: for a non-empty marking and a profile parsing to an object whose
`clearances`, `formal_accesses` and `visas` fields are arrays of
identifier strings, `future_has_access` returns `True` iff the first
`//`-segment is an exact, case-sensitive member of `clearances` and every
remaining segment is a member of `formal_accesses ++ visas` (their union
as far as membership is concerned). No `level`-based hierarchy enters the
decision, and an empty remainder makes the controls check trivially true
(`List.all` of `[]`). -/
theorem claim_C1_strict_membership
    (fields : List (String × Json)) (cs fs vs : List String) (m : String)
    (hm : m ≠ "")
    (hc : dictGet fields "clearances" = some (strArr cs))
    (hf : dictGet fields "formal_accesses" = some (strArr fs))
    (hv : dictGet fields "visas" = some (strArr vs)) :
    future_has_access (some (Json.obj fields)) (some m) =
      Except.ok (memStr cs ((pySplit m).headD "") &&
        (pySplit m).tail.all (fun s => memStr (fs ++ vs) s)) :=
  future_has_access_strArr fields cs fs vs m hm hc hf hv

theorem claim_C1_strict_membership_witness :
    future_has_access
        (some (Json.obj [("clearances", strArr ["S"]),
                         ("formal_accesses", strArr ["ABC"]),
                         ("visas", strArr ["XYZ"])]))
        (some "S//ABC//XYZ") =
      Except.ok (memStr ["S"] ((pySplit "S//ABC//XYZ").headD "") &&
        (pySplit "S//ABC//XYZ").tail.all (fun s => memStr (["ABC"] ++ ["XYZ"]) s)) :=
  claim_C1_strict_membership _ ["S"] ["ABC"] ["XYZ"] "S//ABC//XYZ"
    (by decide) (by rfl) (by rfl) (by rfl)

/-- C2: `validate_marking` is `False` on `None` and on the empty string,
and otherwise `True` exactly when the first `//`-segment resolves, by the
case-insensitive registry lookup, to a Classification token; the
displayed equation depends only on the resolution of segment 0, so the
kinds of all later segments cannot affect the result. -/
theorem claim_C2_validate_first_segment (tokens : List Token) (m : String)
    (hm : m ≠ "") :
    validate_marking tokens none = Except.ok false ∧
    validate_marking tokens (some "") = Except.ok false ∧
    validate_marking tokens (some m) =
      Except.ok ((resolveToken tokens ((pySplit m).headD "")).kind ==
        TokenKind.classif) := by
  refine ⟨rfl, rfl, ?_⟩
  simp only [validate_marking, if_neg hm, split_tokens_eq_map]
  cases hsplit : pySplit m with
  | nil => exact absurd hsplit (pySplit_ne_nil m)
  | cons seg rest => simp

theorem claim_C2_validate_first_segment_witness :
    validate_marking default_tokens none = Except.ok false ∧
    validate_marking default_tokens (some "") = Except.ok false ∧
    validate_marking default_tokens (some "SECRET//FOUO") =
      Except.ok ((resolveToken default_tokens
        ((pySplit "SECRET//FOUO").headD "")).kind == TokenKind.classif) :=
  claim_C2_validate_first_segment default_tokens "SECRET//FOUO" (by decide)

/-- C3: whenever `json.loads` fails on the profile (modelled by the parse
outcome `none`), `future_has_access` returns `False` for every marking and
raises nothing — the `ValueError` is caught (it is logged in the source;
logging is outside this model) and resolved to `Except.ok false`. -/
theorem claim_C3_parse_failure_fails_closed (marking : Option String) :
    future_has_access none marking = Except.ok false := by
  cases marking with
  | none => rfl
  | some m =>
    by_cases h : m = "" <;> simp [future_has_access, h]

/-- C4: a `None` or empty marking makes `future_has_access` return
`False` whatever the profile-parse outcome is — the profile is never
inspected on this path. -/
theorem claim_C4_empty_marking_false (p : Option Json) :
    future_has_access p none = Except.ok false ∧
    future_has_access p (some "") = Except.ok false :=
  ⟨rfl, rfl⟩

/-- C5: the permissive strategy `has_access` returns `True` for every
pair of arguments, including `None` ones. -/
theorem claim_C5_permissive_always_true (j m : Option String) :
    has_access j m = true :=
  rfl

/-- C6: tokenizing splits the marking strictly on `//` (the `pySplit`
model of `str.split`, no trimming), maps each segment, in order, through
the case-insensitive resolution that consults the long-name dict before
the short-name dict, and sends every unmatched segment — empty ones
included — to `UnknownToken` carrying the raw text; the function is total,
so no call can raise. -/
theorem claim_C6_tokenizer (tokens : List Token) (m : String) :
    split_tokens tokens m = (pySplit m).map (resolveToken tokens) ∧
    ∀ seg : String,
      (∀ t ∈ tokens, strUpper t.long_name ≠ strUpper seg ∧
        strUpper t.short_name ≠ strUpper seg) →
      resolveToken tokens seg = UnknownToken seg := by
  refine ⟨split_tokens_eq_map tokens m, ?_⟩
  intro seg hseg
  have h1 : lookupLast (fun t => t.long_name) tokens (strUpper seg) = none := by
    unfold lookupLast
    rw [List.find?_eq_none]
    intro t ht
    simp only [beq_iff_eq]
    exact (hseg t (List.mem_reverse.mp ht)).1
  have h2 : lookupLast (fun t => t.short_name) tokens (strUpper seg) = none := by
    unfold lookupLast
    rw [List.find?_eq_none]
    intro t ht
    simp only [beq_iff_eq]
    exact (hseg t (List.mem_reverse.mp ht)).2
  simp [resolveToken, h1, h2]

theorem claim_C6_tokenizer_witness :
    split_tokens default_tokens "SECRET//ABC//" =
      (pySplit "SECRET//ABC//").map (resolveToken default_tokens) ∧
    resolveToken default_tokens "ABC" = UnknownToken "ABC" ∧
    resolveToken default_tokens "" = UnknownToken "" :=
  ⟨(claim_C6_tokenizer default_tokens "SECRET//ABC//").1,
   (claim_C6_tokenizer default_tokens "SECRET//ABC//").2 "ABC" (by decide),
   (claim_C6_tokenizer default_tokens "SECRET//ABC//").2 "" (by decide)⟩

/-- C7: converting configuration entries to tokens is a total dispatch on
the `type` string — `Classification` entries become Classification tokens
keeping their `level`, `DisseminationControl` entries become control
tokens, and a missing `type`/`data` or an unrecognized `type` becomes the
`InvalidFormatToken` sentinel — so mapping it over any definitions list
always builds a registry of the same length. -/
theorem claim_C7_registry_total (defs : List TokenDef) (d : TokenDef) :
    (defs.map convert_dict_to_token).length = defs.length ∧
    (∀ dat, d.type = some "Classification" → d.data = some dat →
      convert_dict_to_token d =
        ClassificationToken dat.short_name dat.long_name dat.level) ∧
    (∀ dat, d.type = some "DisseminationControl" → d.data = some dat →
      convert_dict_to_token d =
        DisseminationControlToken dat.short_name dat.long_name) ∧
    ((d.type = none ∨ d.data = none) →
      convert_dict_to_token d = InvalidFormatToken) ∧
    (∀ t, d.type = some t → t ≠ "Classification" →
      t ≠ "DisseminationControl" →
      convert_dict_to_token d = InvalidFormatToken) := by
  refine ⟨List.length_map defs convert_dict_to_token, ?_, ?_, ?_, ?_⟩
  · intro dat hty hda
    simp [convert_dict_to_token, hty, hda]
  · intro dat hty hda
    simp [convert_dict_to_token, hty, hda]
  · rintro (hty | hda)
    · simp [convert_dict_to_token, hty]
    · cases hty : d.type <;> simp [convert_dict_to_token, hty, hda]
  · intro t hty ht1 ht2
    cases hda : d.data <;> simp [convert_dict_to_token, hty, hda, ht1, ht2]

theorem claim_C7_registry_total_witness :
    (tokens_list.map convert_dict_to_token).length = tokens_list.length ∧
    convert_dict_to_token
        { type := some "Classification",
          data := some { short_name := "S", long_name := "Secret", level := some 3 } } =
      ClassificationToken "S" "Secret" (some 3) ∧
    convert_dict_to_token
        { type := some "DisseminationControl",
          data := some { short_name := "FOUO", long_name := "FOR OFFICIAL USE ONLY",
                         level := none } } =
      DisseminationControlToken "FOUO" "FOR OFFICIAL USE ONLY" ∧
    convert_dict_to_token { type := none, data := none } = InvalidFormatToken ∧
    convert_dict_to_token
        { type := some "Strange",
          data := some { short_name := "", long_name := "", level := none } } =
      InvalidFormatToken :=
  ⟨(claim_C7_registry_total tokens_list { type := none, data := none }).1,
   (claim_C7_registry_total tokens_list
      { type := some "Classification",
        data := some { short_name := "S", long_name := "Secret", level := some 3 } }).2.1
     _ rfl rfl,
   (claim_C7_registry_total tokens_list
      { type := some "DisseminationControl",
        data := some { short_name := "FOUO", long_name := "FOR OFFICIAL USE ONLY",
                       level := none } }).2.2.1
     _ rfl rfl,
   (claim_C7_registry_total tokens_list
      { type := none, data := none }).2.2.2.1 (Or.inl rfl),
   (claim_C7_registry_total tokens_list
      { type := some "Strange",
        data := some { short_name := "", long_name := "", level := none } }).2.2.2.2
     "Strange" rfl (by decide) (by decide)⟩

/-- C8 counterexample: `future_has_access` does surface an exception — on
the profile that parses to the empty JSON object (the string `"{}"`) with
marking `"S"`, the access `user_accesses['clearances']` raises `KeyError`
instead of yielding a boolean. -/
theorem claim_C8_counterexample :
    future_has_access (some (Json.obj [])) (some "S") =
      Except.error (PyErr.keyError "clearances") := by
  rfl

/-- C8 as amended: `validate_marking` and `has_access` resolve every input
to a boolean without raising, and `future_has_access` does so when the
marking is `None`/empty, when the profile fails to parse, and when the
parsed profile is an object carrying the three fields as string arrays —
but not (per the counterexample) on every input. -/
theorem claim_C8_amended_no_exceptions :
    (∀ (tokens : List Token) (marking : Option String),
      ∃ b, validate_marking tokens marking = Except.ok b) ∧
    (∀ (j m : Option String), has_access j m = true) ∧
    (∀ (p : Option Json), future_has_access p none = Except.ok false ∧
      future_has_access p (some "") = Except.ok false) ∧
    (∀ (m : Option String), future_has_access none m = Except.ok false) ∧
    (∀ (fields : List (String × Json)) (cs fs vs : List String) (m : String),
      m ≠ "" →
      dictGet fields "clearances" = some (strArr cs) →
      dictGet fields "formal_accesses" = some (strArr fs) →
      dictGet fields "visas" = some (strArr vs) →
      ∃ b, future_has_access (some (Json.obj fields)) (some m) = Except.ok b) := by
  refine ⟨?_, fun _ _ => rfl, fun _ => ⟨rfl, rfl⟩, ?_, ?_⟩
  · intro tokens marking
    cases marking with
    | none => exact ⟨false, rfl⟩
    | some m =>
      by_cases hm : m = ""
      · exact ⟨false, by simp [validate_marking, hm]⟩
      · cases hsplit : split_tokens tokens m with
        | nil =>
          rw [split_tokens_eq_map] at hsplit
          cases hs : pySplit m with
          | nil => exact absurd hs (pySplit_ne_nil m)
          | cons a l => rw [hs] at hsplit; simp at hsplit
        | cons t0 ts =>
          exact ⟨t0.kind == TokenKind.classif, by simp [validate_marking, hm, hsplit]⟩
  · intro m
    cases m with
    | none => rfl
    | some s => by_cases h : s = "" <;> simp [future_has_access, h]
  · intro fields cs fs vs m hm hc hf hv
    exact ⟨_, future_has_access_strArr fields cs fs vs m hm hc hf hv⟩

theorem claim_C8_amended_no_exceptions_witness :
    (∃ b, validate_marking default_tokens (some "SECRET//FOUO") = Except.ok b) ∧
    (∃ b, future_has_access
        (some (Json.obj [("clearances", strArr ["S"]),
                         ("formal_accesses", strArr []),
                         ("visas", strArr [])]))
        (some "S") = Except.ok b) :=
  ⟨claim_C8_amended_no_exceptions.1 default_tokens (some "SECRET//FOUO"),
   claim_C8_amended_no_exceptions.2.2.2.2 _ ["S"] [] [] "S"
     (by decide) (by rfl) (by rfl) (by rfl)⟩

/-- C9: every per-request operation leaves the engine — in particular its
token registry, built once by `PluginMain.init` — unchanged, and its
result is a function of the stored registry and the call arguments alone:
two engines agreeing on `tokens` (whatever their `settings`/`requests`)
give equal results, so repeated calls with equal arguments are equal. -/
theorem claim_C9_registry_immutable (e e' : PluginMain) (ua : Option Json)
    (uas m : Option String) (s : String) :
    (e.split_tokensM s).2 = e ∧
    (e.validate_markingM m).2 = e ∧
    (e.future_has_accessM ua m).2 = e ∧
    (e.has_accessM uas m).2 = e ∧
    (e.tokens = e'.tokens →
      (e.split_tokensM s).1 = (e'.split_tokensM s).1 ∧
      (e.validate_markingM m).1 = (e'.validate_markingM m).1 ∧
      (e.future_has_accessM ua m).1 = (e'.future_has_accessM ua m).1 ∧
      (e.has_accessM uas m).1 = (e'.has_accessM uas m).1) := by
  refine ⟨rfl, rfl, rfl, rfl, fun h => ⟨?_, ?_, rfl, rfl⟩⟩
  · simp [PluginMain.split_tokensM, h]
  · simp [PluginMain.validate_markingM, h]

theorem claim_C9_registry_immutable_witness :
    ((PluginMain.init none none).validate_markingM (some "SECRET")).2 =
      PluginMain.init none none ∧
    ((PluginMain.init none none).validate_markingM (some "SECRET")).1 =
      ((PluginMain.init (some "cfg") (some "req")).validate_markingM
        (some "SECRET")).1 :=
  ⟨(claim_C9_registry_immutable (PluginMain.init none none)
      (PluginMain.init (some "cfg") (some "req")) none none (some "SECRET")
      "SECRET").2.1,
   ((claim_C9_registry_immutable (PluginMain.init none none)
      (PluginMain.init (some "cfg") (some "req")) none none (some "SECRET")
      "SECRET").2.2.2.2 rfl).2.1⟩

/-- C10: the `try`/`except ValueError` around `json.loads` is the only
fail-closed guard — a profile that parses to `{}` raises `KeyError`, one
that parses to `[]` raises `TypeError` (both instead of returning
`False`), while a parse failure itself returns `False`; and a non-raising
call on a non-empty marking requires the parsed profile to be an object
carrying the key `clearances`. -/
theorem claim_C10_only_valueerror_caught :
    future_has_access (some (Json.obj [])) (some "TS") =
      Except.error (PyErr.keyError "clearances") ∧
    future_has_access (some (Json.arr [])) (some "TS") =
      Except.error PyErr.typeError ∧
    (∀ m : Option String, future_has_access none m = Except.ok false) ∧
    (∀ (j : Json) (m : String) (b : Bool), m ≠ "" →
      future_has_access (some j) (some m) = Except.ok b →
      ∃ fields, j = Json.obj fields ∧
        (dictGet fields "clearances").isSome = true) := by
  refine ⟨rfl, rfl, ?_, ?_⟩
  · intro m
    cases m with
    | none => rfl
    | some s => by_cases h : s = "" <;> simp [future_has_access, h]
  · intro j m b hm h
    simp only [future_has_access, if_neg hm] at h
    cases j with
    | obj fields =>
      cases hdg : dictGet fields "clearances" with
      | none => simp [pySubscript, hdg] at h
      | some v => exact ⟨fields, rfl, by simp [hdg]⟩
    | null => simp [pySubscript] at h
    | bool b' => simp [pySubscript] at h
    | num n => simp [pySubscript] at h
    | str s => simp [pySubscript] at h
    | arr xs => simp [pySubscript] at h

theorem claim_C10_only_valueerror_caught_witness :
    ∃ fields, Json.obj [("clearances", strArr [])] = Json.obj fields ∧
      (dictGet fields "clearances").isSome = true :=
  claim_C10_only_valueerror_caught.2.2.2
    (Json.obj [("clearances", strArr [])]) "S" false (by decide) (by rfl)
